import Mathlib

/-!
# TheGreenDrop — verification of the feature-derivation and storage-sizing core

Shallow embedding of the numeric core of the `predict` handler in `src/api.py`
and of the recharge-metric calculations of `IMDWeatherService` in
`src/weather_service.py`.

Modelling conventions:
* Python float arithmetic is modelled as exact arithmetic on `ℚ`.
* Python `int(x)` (truncation toward zero) is `pyInt`; Python `round(x, n)`
  (round half to even) is `pyRound`.
* Dynamically typed JSON request values are modelled by `PyVal`, which
  distinguishes numbers, strings (carrying their float-parse result) and
  Python `None`; operations that raise in Python return `Except Unit`.
* Python float division raises `ZeroDivisionError` when the divisor is zero.
  The three derived-feature divisions whose divisor depends on the request or
  the weather (api.py:91, 93, 94 — the `+ 1` / `+ 0.1` offsets only guard the
  usual inputs, they do not make the divisions total) are modelled by `pyDiv`,
  which errors exactly when the divisor is 0; every remaining division in the
  core divides by a nonzero constant (30, 50, 365, 1000, 2000, 10) and is kept
  as total `ℚ` division.
* The external ML model invocation (api.py lines 109-129), the weather-service
  HTTP fetching, latitude/longitude pass-through and the persistence layer are
  outside the verified core and are not represented.
-/

namespace GreenDrop

/-- Python `int(x)` applied to a float: truncation toward zero. -/
def pyInt (q : ℚ) : ℤ := if 0 ≤ q then ⌊q⌋ else ⌈q⌉

/-- Python `round(x)` to an integer: round half to even. -/
def roundHalfEven (q : ℚ) : ℤ :=
  if Int.fract q < 1/2 then ⌊q⌋
  else if 1/2 < Int.fract q then ⌊q⌋ + 1
  else if ⌊q⌋ % 2 = 0 then ⌊q⌋ else ⌊q⌋ + 1

/-- Python `round(x, n)` to `n` decimal places. -/
def pyRound (q : ℚ) (n : ℕ) : ℚ := (roundHalfEven (q * 10 ^ n) : ℚ) / 10 ^ n

/-- A dynamically typed JSON request value: a number, a string carrying its
float-parse result (`Option.none` when the string does not parse as a float),
or Python `None`. -/
inductive PyVal where
  | none : PyVal
  | num (q : ℚ) : PyVal
  | str (parse : Option ℚ) : PyVal

/-- Python `float(v)`: numbers coerce to themselves, strings parse or raise
`ValueError`, `None` raises `TypeError`. -/
def pyFloat : PyVal → Except Unit ℚ
  | .num q => .ok q
  | .str (some q) => .ok q
  | .str Option.none => .error ()
  | .none => .error ()

/-- Body of the numeric-coercion loop (api.py:82-88):
`try: float(v) except (ValueError, TypeError): 0.0`. -/
def coerce (v : PyVal) : ℚ := (pyFloat v).toOption.getD 0

/-- Python `v * x` where `x` is a float: numbers multiply; a string or `None`
on the left raises `TypeError` (a float never repeats a string). -/
def pyMulNum : PyVal → ℚ → Except Unit ℚ
  | .num p, x => .ok (p * x)
  | .str _, _ => .error ()
  | .none, _ => .error ()

/-- Python float division `a / b` where the divisor `b` is not a nonzero
constant: raises `ZeroDivisionError` exactly when `b = 0`. -/
def pyDiv (a b : ℚ) : Except Unit ℚ := if b = 0 then .error () else .ok (a / b)

/-- Fixed daily usage in litres: 4 occupants at 200 L each (api.py:135-136). -/
def dailyUsage : ℚ := 800

/-- Fixed monthly rainfall-share table (api.py:140-153), January first. -/
def monthlyShare : Fin 12 → ℚ :=
  ![0.01, 0.01, 0.02, 0.03, 0.05, 0.15, 0.25, 0.20, 0.15, 0.08, 0.03, 0.02]

/-- Fixed days-per-month table, non-leap February (api.py:160-164). -/
def daysInMonth : Fin 12 → ℕ :=
  ![31, 28, 31, 30, 31, 30, 31, 31, 30, 31, 30, 31]

/-- Annual harvestable litres (api.py:105-106 and 132-133):
`roof_area * (annual_rainfall_mm / 1000) * runoff_coefficient * 1000`. -/
def annualHarvestable (roof rain runoff : ℚ) : ℚ :=
  roof * (rain / 1000) * runoff * 1000

/-- Un-truncated harvestable litres for one month (api.py:168):
`annual_harvestable * percentage`. -/
def monthHarvestRaw (annual : ℚ) (m : Fin 12) : ℚ := annual * monthlyShare m

/-- Monthly harvestable figure stored in the response (api.py:169):
`int()` of the raw value. -/
def monthHarvest (annual : ℚ) (m : Fin 12) : ℤ := pyInt (monthHarvestRaw annual m)

/-- Monthly storage requirement (api.py:173-179): the deficit of usage against
the RAW (un-truncated) monthly harvestable, clamped at 0, with the fixed 20%
dry-spell buffer, then `int()`. -/
def monthStorage (annual : ℚ) (m : Fin 12) : ℤ :=
  pyInt (max (dailyUsage * (daysInMonth m : ℚ) - monthHarvestRaw annual m) 0 * 1.2)

/-- Traditional tank capacity (api.py:182-183 and 190):
`int(min(annual_harvestable * 0.3, daily_usage * 90))`. -/
def tankCap (annual : ℚ) : ℤ := pyInt (min (annual * 0.3) (dailyUsage * 90))

/-- Derived harvest-potential feature (api.py:95):
`annual_rainfall_mm * roof_area_m2 * runoff_coefficient / 1000`. -/
def harvestPotential (rain roof runoff : ℚ) : ℚ := rain * roof * runoff / 1000

/-- Weather metrics consumed by `predict` (the values in the weather dict are
numeric by construction of the weather service). -/
structure Weather where
  annual_rainfall_mm : ℚ
  max_daily_rainfall_mm : ℚ
  rainy_days_count : ℚ
  avg_temperature_c : ℚ
  evaporation_rate_mmday : ℚ

/-- Raw request fields consumed by the numeric core of `predict`
(api.py:44-48 and 61-72).  `Option.none` means the key is absent from the
request JSON. -/
structure RawRequest where
  roof_area_m2 : Option PyVal := Option.none
  available_space_m2 : Option PyVal := Option.none
  clay_pct : Option PyVal := Option.none
  sand_pct : Option PyVal := Option.none
  silt_pct : Option PyVal := Option.none
  elevation_m : Option PyVal := Option.none
  infiltration_rate_mmhr : Option PyVal := Option.none
  runoff_coefficient : Option PyVal := Option.none
  annual_runoff_m3 : Option PyVal := Option.none

/-- The numeric feature vector after coercion and feature derivation
(api.py:55-97), restricted to the fields the claims concern. -/
structure FeatureVec where
  annual_rainfall_mm : ℚ
  max_daily_rainfall_mm : ℚ
  rainy_days_count : ℚ
  avg_temperature_c : ℚ
  evaporation_rate_mmday : ℚ
  clay_pct : ℚ
  sand_pct : ℚ
  silt_pct : ℚ
  elevation_m : ℚ
  roof_area_m2 : ℚ
  available_space_m2 : ℚ
  infiltration_rate_mmhr : ℚ
  runoff_coefficient : ℚ
  annual_runoff_m3 : ℚ
  rainfall_intensity : ℚ
  soil_water_capacity : ℚ
  roof_efficiency : ℚ
  climate_aridity : ℚ
  harvest_potential : ℚ
  temperature_factor : ℚ
  elevation_factor : ℚ

/-- Successful output of the numeric core of `predict`. -/
structure PredictOk where
  features : FeatureVec
  annual_harvestable : ℚ
  monthly_harvestable : Fin 12 → ℤ
  monthly_storage : Fin 12 → ℤ
  tank_capacity : ℤ

/-- The numeric core of the `predict` handler (api.py:44-106 and 132-190).
An uncaught Python exception inside the handler is modelled by `.error ()`
(the handler's outer `except` turns it into a rejected request, HTTP 500).
Note: `float()` is applied to `runoff_coefficient` already while building the
features dict (api.py:71), before the coercion loop; and the water-balance
computation (api.py:100-106, 132-133) multiplies the RAW `roof_area` request
value, not the coerced feature. -/
def predict (r : RawRequest) (w : Weather) : Except Unit PredictOk := do
  -- api.py:47-48 — raw request values; an absent key yields Python None
  let rawRoof : PyVal := r.roof_area_m2.getD PyVal.none
  let rawAvail : PyVal := r.available_space_m2.getD rawRoof
  -- api.py:71 — float() during dict construction; a parse failure here
  -- propagates to the outer handler and aborts the whole request
  let runoffC : ℚ ← pyFloat (r.runoff_coefficient.getD (PyVal.num 0.8))
  -- api.py:61-72 defaults, then the 82-88 coercion loop (float or 0.0);
  -- weather-dict entries are already floats, so the loop leaves them unchanged
  let clay := coerce (r.clay_pct.getD (PyVal.num 30))
  let sand := coerce (r.sand_pct.getD (PyVal.num 40))
  let silt := coerce (r.silt_pct.getD (PyVal.num 30))
  let elev := coerce (r.elevation_m.getD (PyVal.num 100))
  let infilRate := coerce (r.infiltration_rate_mmhr.getD (PyVal.num 10))
  let roofC := coerce rawRoof
  let availC := coerce rawAvail
  let runoffM3 := coerce (r.annual_runoff_m3.getD (PyVal.num 0))
  -- api.py:91-97 — derived features, computed on the coerced values; the
  -- three divisions whose divisor depends on the request or the weather raise
  -- ZeroDivisionError when it vanishes (the other divisors are the nonzero
  -- constants 1000 and 30)
  let rainfall_intensity ← pyDiv w.max_daily_rainfall_mm (w.rainy_days_count + 1)
  let soil_water_capacity := clay * 0.4 + silt * 0.3 + sand * 0.1
  let roof_efficiency ← pyDiv roofC (availC + 1)
  let climate_aridity ← pyDiv w.evaporation_rate_mmday (w.annual_rainfall_mm / 365 + 0.1)
  let harvest_potential := w.annual_rainfall_mm * roofC * runoffC / 1000
  let temperature_factor := w.avg_temperature_c / 30
  let elevation_factor := elev / 1000
  -- api.py:100-102 — recompute annual runoff from the RAW roof_area value
  let annualRunoff : ℚ ←
    if runoffM3 = 0 then do
      let t ← pyMulNum rawRoof (w.annual_rainfall_mm / 1000)
      pure (t * runoffC)
    else pure runoffM3
  -- api.py:105-106 and 132-133 — annual harvestable litres from the RAW
  -- roof_area value
  let annualT : ℚ ← pyMulNum rawRoof (w.annual_rainfall_mm / 1000)
  let annual := annualT * runoffC * 1000
  pure
    { features :=
        { annual_rainfall_mm := w.annual_rainfall_mm
          max_daily_rainfall_mm := w.max_daily_rainfall_mm
          rainy_days_count := w.rainy_days_count
          avg_temperature_c := w.avg_temperature_c
          evaporation_rate_mmday := w.evaporation_rate_mmday
          clay_pct := clay
          sand_pct := sand
          silt_pct := silt
          elevation_m := elev
          roof_area_m2 := roofC
          available_space_m2 := availC
          infiltration_rate_mmhr := infilRate
          runoff_coefficient := runoffC
          annual_runoff_m3 := annualRunoff
          rainfall_intensity := rainfall_intensity
          soil_water_capacity := soil_water_capacity
          roof_efficiency := roof_efficiency
          climate_aridity := climate_aridity
          harvest_potential := harvest_potential
          temperature_factor := temperature_factor
          elevation_factor := elevation_factor }
      annual_harvestable := annual
      monthly_harvestable := fun m => monthHarvest annual m
      monthly_storage := fun m => monthStorage annual m
      tank_capacity := tankCap annual }

/-- Season classification (weather_service.py:406-438).  `clockMonth` models
the `datetime.now().month` value read INSIDE the Python function — ambient
system-clock state, not an explicit input of `_calculate_seasonality`. -/
def calculateSeasonality (clockMonth : ℕ) : String × ℚ :=
  if clockMonth ∈ [6, 7, 8, 9] then ("Monsoon", 1.5)
  else if clockMonth ∈ [3, 4, 5] then ("Pre-Monsoon", 0.8)
  else if clockMonth ∈ [10, 11] then ("Post-Monsoon", 1.2)
  else ("Winter", 0.5)

/-- Monsoon intensity classification (weather_service.py:440-471), strict
greater-than thresholds, highest first. -/
def calculateMonsoonIntensity (rain : ℚ) : String × ℚ :=
  if rain > 2000 then ("Very High", 0.9)
  else if rain > 1500 then ("High", 0.7)
  else if rain > 1000 then ("Moderate", 0.5)
  else if rain > 500 then ("Low", 0.3)
  else ("Very Low", 0.1)

/-- Output record of `_calculate_recharge_metrics` (the `peak_rainfall_capacity`
pass-through of `max_daily_rainfall_mm` is omitted; no claim concerns it). -/
structure RechargeMetrics where
  evaporation_rate_mmday : ℚ
  infiltration_potential : ℚ
  recharge_efficiency : ℚ
  current_season : String
  recharge_factor : ℚ
  monsoon_intensity : String
  intensity_score : ℚ

/-- Recharge metric computation (weather_service.py:377-404).  The rounded
values are what the function returns; `recharge_efficiency` is computed from
the UN-rounded evaporation rate and infiltration potential, and it is not
clamped below by 0.  `clockMonth` is the ambient clock month consumed by the
nested `_calculate_seasonality` call (weather_service.py:399). -/
def calculateRechargeMetrics (temp humidity wind rain : ℚ) (clockMonth : ℕ) :
    RechargeMetrics :=
  let evaporation_rate := max 0.1 ((temp - 10) * (100 - humidity) / 1000 * (1 + wind / 50))
  let infiltration_potential := min 1.0 (rain / 2000)
  let recharge_efficiency := infiltration_potential * (1 - evaporation_rate / 10)
  let seasonality := calculateSeasonality clockMonth
  let monsoon := calculateMonsoonIntensity rain
  { evaporation_rate_mmday := pyRound evaporation_rate 2
    infiltration_potential := pyRound infiltration_potential 3
    recharge_efficiency := pyRound recharge_efficiency 3
    current_season := seasonality.1
    recharge_factor := seasonality.2
    monsoon_intensity := monsoon.1
    intensity_score := monsoon.2 }

/-- A concrete weather record matching the service's documented fallback
defaults (weather_service.py:53-63). -/
def sampleWeather : Weather :=
  { annual_rainfall_mm := 1200
    max_daily_rainfall_mm := 50
    rainy_days_count := 120
    avg_temperature_c := 25
    evaporation_rate_mmday := 4.5 }

/- ### Helper lemmas -/

theorem pyInt_eq_floor {q : ℚ} (h : 0 ≤ q) : pyInt q = ⌊q⌋ := if_pos h

theorem pyInt_nonneg {q : ℚ} (h : 0 ≤ q) : 0 ≤ pyInt q := by
  rw [pyInt_eq_floor h]
  exact Int.floor_nonneg.mpr h

theorem roundHalfEven_intCast (n : ℤ) : roundHalfEven (n : ℚ) = n := by
  unfold roundHalfEven
  rw [Int.fract_intCast, Int.floor_intCast]
  norm_num

theorem monthlyShare_nonneg (m : Fin 12) : 0 ≤ monthlyShare m := by
  fin_cases m <;> norm_num [monthlyShare]

theorem monthlyShare_sum : (∑ m : Fin 12, monthlyShare m) = 1 := by
  simp [Fin.sum_univ_succ, monthlyShare]
  norm_num

theorem annualHarvestable_nonneg {roof rain runoff : ℚ}
    (h1 : 0 ≤ roof) (h2 : 0 ≤ rain) (h3 : 0 ≤ runoff) :
    0 ≤ annualHarvestable roof rain runoff :=
  mul_nonneg (mul_nonneg (mul_nonneg h1 (div_nonneg h2 (by norm_num))) h3) (by norm_num)

theorem coerce_num (q : ℚ) : coerce (PyVal.num q) = q := rfl

theorem coerce_none : coerce PyVal.none = 0 := rfl

theorem pyDiv_eq_ok {b : ℚ} (h : b ≠ 0) (a : ℚ) : pyDiv a b = Except.ok (a / b) :=
  if_neg h

theorem pyDiv_eq_error {b : ℚ} (h : b = 0) (a : ℚ) : pyDiv a b = Except.error () :=
  if_pos h

/-- The pipeline succeeds on a numeric roof area when none of the three
derived-feature divisions hit a zero divisor; with `available_space_m2` absent
the roof-efficiency divisor is the roof value plus one (api.py:48, 93). -/
theorem predict_num_roof_ok (q : ℚ) (w : Weather) (h1 : w.rainy_days_count + 1 ≠ 0)
    (h2 : q + 1 ≠ 0) (h3 : w.annual_rainfall_mm / 365 + 0.1 ≠ 0) :
    (predict { roof_area_m2 := some (PyVal.num q) } w).toOption.isSome = true := by
  have h2' : coerce (PyVal.num q) + 1 ≠ 0 := by rw [coerce_num]; exact h2
  simp only [predict, Option.getD_none, Option.getD_some]
  rw [pyDiv_eq_ok h1, pyDiv_eq_ok h2', pyDiv_eq_ok h3]
  rfl

/-- An absent roof area (Python `None`) always aborts the request: whichever
derived-feature division fires first, or else the `None * float` TypeError in
the annual-runoff recomputation (api.py:102). -/
theorem predict_absent_roof_error (w : Weather) :
    predict {} w = .error () := by
  have h2 : coerce PyVal.none + 1 ≠ 0 := by rw [coerce_none]; norm_num
  by_cases hd1 : w.rainy_days_count + 1 = 0
  · simp only [predict, Option.getD_none, Option.getD_some]
    rw [pyDiv_eq_error hd1]
    rfl
  · by_cases hd3 : w.annual_rainfall_mm / 365 + 0.1 = 0
    · simp only [predict, Option.getD_none, Option.getD_some]
      rw [pyDiv_eq_ok hd1, pyDiv_eq_ok h2, pyDiv_eq_error hd3]
      rfl
    · simp only [predict, Option.getD_none, Option.getD_some]
      rw [pyDiv_eq_ok hd1, pyDiv_eq_ok h2, pyDiv_eq_ok hd3]
      rfl

/-- A roof area supplied as a string always aborts the request: either a
derived-feature division fires, or the `str * float` TypeError in the
annual-runoff recomputation does (api.py:102). -/
theorem predict_str_roof_error (p : Option ℚ) (w : Weather) :
    predict { roof_area_m2 := some (PyVal.str p) } w = .error () := by
  by_cases hd1 : w.rainy_days_count + 1 = 0
  · simp only [predict, Option.getD_none, Option.getD_some]
    rw [pyDiv_eq_error hd1]
    rfl
  · by_cases hd2 : coerce (PyVal.str p) + 1 = 0
    · simp only [predict, Option.getD_none, Option.getD_some]
      rw [pyDiv_eq_ok hd1, pyDiv_eq_error hd2]
      rfl
    · by_cases hd3 : w.annual_rainfall_mm / 365 + 0.1 = 0
      · simp only [predict, Option.getD_none, Option.getD_some]
        rw [pyDiv_eq_ok hd1, pyDiv_eq_ok hd2, pyDiv_eq_error hd3]
        rfl
      · simp only [predict, Option.getD_none, Option.getD_some]
        rw [pyDiv_eq_ok hd1, pyDiv_eq_ok hd2, pyDiv_eq_ok hd3]
        rfl

/-- A numeric roof area of -1 with `available_space_m2` absent always aborts
the request: `available_space` defaults to the roof (api.py:48), so the
roof-efficiency divisor `-1.0 + 1` is zero (api.py:93) — unless the
rainfall-intensity division (api.py:91) already fired. -/
theorem predict_neg_one_roof_error (w : Weather) :
    predict { roof_area_m2 := some (PyVal.num (-1)) } w = .error () := by
  have h2 : coerce (PyVal.num (-1)) + 1 = 0 := by rw [coerce_num]; norm_num
  by_cases hd1 : w.rainy_days_count + 1 = 0
  · simp only [predict, Option.getD_none, Option.getD_some]
    rw [pyDiv_eq_error hd1]
    rfl
  · simp only [predict, Option.getD_none, Option.getD_some]
    rw [pyDiv_eq_ok hd1, pyDiv_eq_error h2]
    rfl

/-- With a numeric roof of 100 and an unparsable clay percentage, the pipeline
runs to completion (when no division fires) and the clay feature is the
substituted 0.0. -/
theorem predict_clay_str_ok (w : Weather) (h1 : w.rainy_days_count + 1 ≠ 0)
    (h3 : w.annual_rainfall_mm / 365 + 0.1 ≠ 0) :
    (predict { roof_area_m2 := some (PyVal.num 100),
               clay_pct := some (PyVal.str Option.none) } w).toOption.map
        (fun o => o.features.clay_pct) = some 0 := by
  have h2 : coerce (PyVal.num 100) + 1 ≠ 0 := by rw [coerce_num]; norm_num
  simp only [predict, Option.getD_none, Option.getD_some]
  rw [pyDiv_eq_ok h1, pyDiv_eq_ok h2, pyDiv_eq_ok h3]
  rfl


/- ### C1 — tank capacity -/

/-- C1 (amended): the recommended tank capacity is the Python `int()`
truncation toward zero of `min(annual_harvestable * 0.3, 72000)`; this equals
`floor(min(annual_harvestable * 0.3, 72000))` whenever `roof_area_m2`,
`annual_rainfall_mm` and `runoff_coefficient` are non-negative (in that case
the argument of the truncation is non-negative). -/
theorem tankCap_eq_floor_min_of_nonneg (roof rain runoff : ℚ)
    (h1 : 0 ≤ roof) (h2 : 0 ≤ rain) (h3 : 0 ≤ runoff) :
    tankCap (annualHarvestable roof rain runoff)
      = ⌊min (annualHarvestable roof rain runoff * 0.3) 72000⌋ := by
  have ha := annualHarvestable_nonneg h1 h2 h3
  have hmin : 0 ≤ min (annualHarvestable roof rain runoff * 0.3) (dailyUsage * 90) :=
    le_min (mul_nonneg ha (by norm_num)) (by norm_num [dailyUsage])
  unfold tankCap
  rw [pyInt_eq_floor hmin]
  norm_num [dailyUsage]

/-- C1 counterexample: for the finite numeric input `roof_area_m2 = -1`,
`annual_rainfall_mm = 1`, `runoff_coefficient = 0.5`, the code's `int()`
truncation yields 0 while the claimed `floor(min(annual*0.3, 72000))` is -1,
so the claim fails as stated for arbitrary finite numeric inputs. -/
theorem tankCap_floor_counterexample :
    tankCap (annualHarvestable (-1) 1 0.5)
      ≠ ⌊min (annualHarvestable (-1) 1 0.5 * 0.3) 72000⌋ := by
  have h1 : annualHarvestable (-1) 1 0.5 = -(1/2) := by norm_num [annualHarvestable]
  rw [h1]
  have h2 : tankCap (-(1/2)) = 0 := by
    norm_num [tankCap, pyInt, dailyUsage, Int.ceil_eq_iff]
  have h3 : ⌊((-(1/2) : ℚ) * 0.3) ⊓ 72000⌋ = -1 := by
    norm_num [Int.floor_eq_iff]
  rw [h2, show (min ((-(1/2) : ℚ) * 0.3) 72000) = ((-(1/2) : ℚ) * 0.3) ⊓ 72000 from rfl, h3]
  norm_num

/-- C1 witness: the amended theorem applied at the concrete non-negative input
`roof = 100`, `rain = 1200`, `runoff = 0.8`. -/
theorem tankCap_eq_floor_min_witness :
    (0 : ℚ) ≤ 100 ∧ (0 : ℚ) ≤ 1200 ∧ (0 : ℚ) ≤ 0.8 ∧
      tankCap (annualHarvestable 100 1200 0.8)
        = ⌊min (annualHarvestable 100 1200 0.8 * 0.3) 72000⌋ :=
  ⟨by norm_num, by norm_num, by norm_num,
    tankCap_eq_floor_min_of_nonneg 100 1200 0.8 (by norm_num) (by norm_num) (by norm_num)⟩

/- ### C2 — monthly plan -/

/-- C2 (amended): for non-negative inputs, each month's harvestable figure is
`floor(annual_harvestable * monthly_share(m))`, and the storage requirement is
`floor(max(800 * days_in_month(m) - annual_harvestable * monthly_share(m), 0) * 1.2)`
— the deficit is taken against the UN-truncated monthly harvestable, not the
floored figure; the 1.2 buffer applies only to the deficit and surplus months
get storage 0, never negative.  In the concrete scenario roof=100, rain=1200,
runoff=0.8: July harvestable = 24000, July storage = 960, tank = 28800. -/
theorem monthlyPlan_spec (roof rain runoff : ℚ)
    (h1 : 0 ≤ roof) (h2 : 0 ≤ rain) (h3 : 0 ≤ runoff) (m : Fin 12) :
    monthHarvest (annualHarvestable roof rain runoff) m
        = ⌊annualHarvestable roof rain runoff * monthlyShare m⌋
      ∧ monthStorage (annualHarvestable roof rain runoff) m
        = ⌊max (dailyUsage * (daysInMonth m : ℚ)
              - annualHarvestable roof rain runoff * monthlyShare m) 0 * 1.2⌋
      ∧ 0 ≤ monthStorage (annualHarvestable roof rain runoff) m
      ∧ (dailyUsage * (daysInMonth m : ℚ)
            ≤ annualHarvestable roof rain runoff * monthlyShare m
          → monthStorage (annualHarvestable roof rain runoff) m = 0)
      ∧ monthHarvest (annualHarvestable 100 1200 0.8) 6 = 24000
      ∧ monthStorage (annualHarvestable 100 1200 0.8) 6 = 960
      ∧ tankCap (annualHarvestable 100 1200 0.8) = 28800 := by
  have ha := annualHarvestable_nonneg h1 h2 h3
  have hraw : 0 ≤ monthHarvestRaw (annualHarvestable roof rain runoff) m :=
    mul_nonneg ha (monthlyShare_nonneg m)
  have hstor : 0 ≤ max (dailyUsage * (daysInMonth m : ℚ)
      - monthHarvestRaw (annualHarvestable roof rain runoff) m) 0 * 1.2 :=
    mul_nonneg (le_max_right _ _) (by norm_num)
  have h96 : annualHarvestable 100 1200 0.8 = 96000 := by norm_num [annualHarvestable]
  refine ⟨?_, ?_, ?_, ?_, ?_, ?_, ?_⟩
  · exact pyInt_eq_floor hraw
  · exact pyInt_eq_floor hstor
  · exact pyInt_nonneg hstor
  · intro hle
    unfold monthStorage monthHarvestRaw
    rw [max_eq_right (sub_nonpos.mpr hle), zero_mul]
    simp [pyInt]
  · rw [h96]
    norm_num [monthHarvest, monthHarvestRaw, pyInt,
      show monthlyShare 6 = 0.25 from rfl, Int.floor_eq_iff]
  · rw [h96]
    norm_num [monthStorage, monthHarvestRaw, pyInt, dailyUsage,
      show monthlyShare 6 = 0.25 from rfl, show daysInMonth 6 = 31 from rfl,
      Int.floor_eq_iff]
  · rw [h96]
    norm_num [tankCap, pyInt, dailyUsage, Int.floor_eq_iff]

/-- C2 counterexample: with roof=100, rain=1200.025, runoff=0.8 (all finite and
non-negative) the annual harvestable is 96002, July's raw monthly harvestable
is 24000.5, and the code stores `int(max(24800 - 24000.5, 0) * 1.2) = 959`,
whereas the claim's formula `floor(max(24800 - floor(24000.5), 0) * 1.2)`
gives 960: the code does not apply the buffer to the deficit against the
FLOORED harvestable figure. -/
theorem monthStorage_floored_harvest_counterexample :
    monthStorage (annualHarvestable 100 1200.025 0.8) 6
      ≠ ⌊max (dailyUsage * (daysInMonth 6 : ℚ)
            - (monthHarvest (annualHarvestable 100 1200.025 0.8) 6 : ℚ)) 0 * 1.2⌋ := by
  have ha : annualHarvestable 100 1200.025 0.8 = 96002 := by norm_num [annualHarvestable]
  rw [ha]
  have hh : monthHarvest (96002 : ℚ) 6 = 24000 := by
    norm_num [monthHarvest, monthHarvestRaw, pyInt,
      show monthlyShare 6 = 0.25 from rfl, Int.floor_eq_iff]
  have hs : monthStorage (96002 : ℚ) 6 = 959 := by
    norm_num [monthStorage, monthHarvestRaw, pyInt, dailyUsage,
      show monthlyShare 6 = 0.25 from rfl, show daysInMonth 6 = 31 from rfl,
      Int.floor_eq_iff]
  rw [hh, hs]
  norm_num [dailyUsage, show daysInMonth 6 = 31 from rfl, Int.floor_eq_iff]

/-- C2 witness: the amended theorem applied at roof=100, rain=1200, runoff=0.8
and July (month index 6). -/
theorem monthlyPlan_spec_witness :
    (0 : ℚ) ≤ 100 ∧ (0 : ℚ) ≤ 1200 ∧ (0 : ℚ) ≤ 0.8 ∧
      (monthHarvest (annualHarvestable 100 1200 0.8) 6
          = ⌊annualHarvestable 100 1200 0.8 * monthlyShare 6⌋
        ∧ monthStorage (annualHarvestable 100 1200 0.8) 6
          = ⌊max (dailyUsage * (daysInMonth 6 : ℚ)
                - annualHarvestable 100 1200 0.8 * monthlyShare 6) 0 * 1.2⌋
        ∧ 0 ≤ monthStorage (annualHarvestable 100 1200 0.8) 6
        ∧ (dailyUsage * (daysInMonth 6 : ℚ)
              ≤ annualHarvestable 100 1200 0.8 * monthlyShare 6
            → monthStorage (annualHarvestable 100 1200 0.8) 6 = 0)
        ∧ monthHarvest (annualHarvestable 100 1200 0.8) 6 = 24000
        ∧ monthStorage (annualHarvestable 100 1200 0.8) 6 = 960
        ∧ tankCap (annualHarvestable 100 1200 0.8) = 28800) :=
  ⟨by norm_num, by norm_num, by norm_num,
    monthlyPlan_spec 100 1200 0.8 (by norm_num) (by norm_num) (by norm_num) 6⟩

/- ### C3 — share table sums to 1; per-month flooring loses < 12 litres -/

/-- C3: the fixed monthly rainfall-share table sums to exactly 1, and for every
input with positive roof area and non-negative rainfall and runoff coefficient
the 12 floored monthly harvestable figures sum to the annual harvestable up to
a total rounding loss in [0, 12): the difference is non-negative and strictly
less than 12 litres. -/
theorem monthlyShare_sum_and_floor_error (roof rain runoff : ℚ)
    (h1 : 0 < roof) (h2 : 0 ≤ rain) (h3 : 0 ≤ runoff) :
    (∑ m : Fin 12, monthlyShare m) = 1
      ∧ 0 ≤ annualHarvestable roof rain runoff
          - ∑ m : Fin 12, (monthHarvest (annualHarvestable roof rain runoff) m : ℚ)
      ∧ annualHarvestable roof rain runoff
          - ∑ m : Fin 12, (monthHarvest (annualHarvestable roof rain runoff) m : ℚ) < 12 := by
  have ha : 0 ≤ annualHarvestable roof rain runoff :=
    annualHarvestable_nonneg h1.le h2 h3
  have hterm : ∀ m : Fin 12,
      (monthHarvest (annualHarvestable roof rain runoff) m : ℚ)
        = (⌊annualHarvestable roof rain runoff * monthlyShare m⌋ : ℚ) := by
    intro m
    simp only [monthHarvest, monthHarvestRaw,
      pyInt_eq_floor (mul_nonneg ha (monthlyShare_nonneg m))]
  have hle : (∑ m : Fin 12, (monthHarvest (annualHarvestable roof rain runoff) m : ℚ))
      ≤ annualHarvestable roof rain runoff := by
    calc (∑ m : Fin 12, (monthHarvest (annualHarvestable roof rain runoff) m : ℚ))
        ≤ ∑ m : Fin 12, annualHarvestable roof rain runoff * monthlyShare m := by
          refine Finset.sum_le_sum ?_
          intro m _
          rw [hterm m]
          exact Int.floor_le _
      _ = annualHarvestable roof rain runoff * ∑ m : Fin 12, monthlyShare m := by
          rw [Finset.mul_sum]
      _ = annualHarvestable roof rain runoff := by rw [monthlyShare_sum, mul_one]
  have hgt : annualHarvestable roof rain runoff - 12
      < ∑ m : Fin 12, (monthHarvest (annualHarvestable roof rain runoff) m : ℚ) := by
    have h12 : (∑ _m : Fin 12, (1 : ℚ)) = 12 := by simp
    calc annualHarvestable roof rain runoff - 12
        = ∑ m : Fin 12, (annualHarvestable roof rain runoff * monthlyShare m - 1) := by
          rw [Finset.sum_sub_distrib, ← Finset.mul_sum, monthlyShare_sum, mul_one, h12]
      _ < ∑ m : Fin 12, (monthHarvest (annualHarvestable roof rain runoff) m : ℚ) := by
          refine Finset.sum_lt_sum_of_nonempty Finset.univ_nonempty ?_
          intro m _
          rw [hterm m]
          exact Int.sub_one_lt_floor _
  exact ⟨monthlyShare_sum, by linarith, by linarith⟩

/-- C3 witness: the theorem applied at roof=100, rain=1200, runoff=0.8. -/
theorem monthlyShare_sum_and_floor_error_witness :
    (0 : ℚ) < 100 ∧ (0 : ℚ) ≤ 1200 ∧ (0 : ℚ) ≤ 0.8 ∧
      ((∑ m : Fin 12, monthlyShare m) = 1
        ∧ 0 ≤ annualHarvestable 100 1200 0.8
            - ∑ m : Fin 12, (monthHarvest (annualHarvestable 100 1200 0.8) m : ℚ)
        ∧ annualHarvestable 100 1200 0.8
            - ∑ m : Fin 12, (monthHarvest (annualHarvestable 100 1200 0.8) m : ℚ) < 12) :=
  ⟨by norm_num, by norm_num, by norm_num,
    monthlyShare_sum_and_floor_error 100 1200 0.8 (by norm_num) (by norm_num) (by norm_num)⟩

/- ### C4 — zero roof area boundary -/

/-- C4: with `roof_area_m2 = 0` (all other inputs arbitrary finite rationals)
the water-balance calculator — which contains no division at all — does not
fail and returns annual harvestable 0, every monthly harvestable figure 0, and
monthly storage `floor(800 * days_in_month * 1.2)` for every month, with
February counted as 28 days; moreover the surrounding pipeline also succeeds
on a request carrying a numeric zero roof area whenever the feature-deriver
divisions (api.py:91, 94) have nonzero divisors — at roof 0 the third divisor
(api.py:93) is the constant 1, since `available_space` defaults to the roof. -/
theorem roofArea_zero_boundary (rain runoff : ℚ) (m : Fin 12) :
    annualHarvestable 0 rain runoff = 0
      ∧ monthHarvest (annualHarvestable 0 rain runoff) m = 0
      ∧ monthStorage (annualHarvestable 0 rain runoff) m
          = ⌊(dailyUsage * (daysInMonth m : ℚ) * 1.2 : ℚ)⌋
      ∧ daysInMonth 1 = 28
      ∧ (∀ w : Weather, w.rainy_days_count + 1 ≠ 0
          → w.annual_rainfall_mm / 365 + 0.1 ≠ 0
          → (predict { roof_area_m2 := some (PyVal.num 0) } w).toOption.isSome = true) := by
  have h0 : annualHarvestable 0 rain runoff = 0 := by
    norm_num [annualHarvestable]
  have hd : 0 ≤ dailyUsage * (daysInMonth m : ℚ) :=
    mul_nonneg (by norm_num [dailyUsage]) (Nat.cast_nonneg _)
  refine ⟨h0, ?_, ?_, rfl, fun w hw1 hw3 => predict_num_roof_ok 0 w hw1 (by norm_num) hw3⟩
  · rw [h0]
    simp [monthHarvest, monthHarvestRaw, pyInt]
  · rw [h0]
    unfold monthStorage monthHarvestRaw
    rw [zero_mul, sub_zero, max_eq_left hd, pyInt_eq_floor (mul_nonneg hd (by norm_num))]

/-- C4 witness: the pipeline conjunct applied at the concrete fallback weather
record, whose division guards are easily checked. -/
theorem roofArea_zero_boundary_witness :
    sampleWeather.rainy_days_count + 1 ≠ 0
      ∧ sampleWeather.annual_rainfall_mm / 365 + 0.1 ≠ 0
      ∧ (predict { roof_area_m2 := some (PyVal.num 0) } sampleWeather).toOption.isSome
          = true :=
  ⟨by norm_num [sampleWeather], by norm_num [sampleWeather],
    (roofArea_zero_boundary 1200 0.8 1).2.2.2.2 sampleWeather
      (by norm_num [sampleWeather]) (by norm_num [sampleWeather])⟩

/- ### C5 — which requests are rejected -/

/-- C5 (amended): there is no typed `InvalidInput` rejection — failures
surface only through the handler's generic error path.  For a request whose
remaining fields are absent and weather that does not trip the two
weather-dependent division guards (`rainy_days_count + 1 ≠ 0` and
`annual_rainfall_mm/365 + 0.1 ≠ 0`), the pipeline fails exactly when
`roof_area_m2` is not a number with `roof + 1 ≠ 0`: it errors when the field
is absent, when it is any string (even one that parses), and when it equals -1
(`available_space` defaults to the roof, so the roof-efficiency division at
api.py:93 divides by zero); a present numeric roof area with `roof + 1 ≠ 0` —
zero or negative included — is processed normally rather than rejected.
Separately, an unparsable `runoff_coefficient` also aborts the request. -/
theorem predict_rejection_characterisation :
    (∀ (q : ℚ) (w : Weather), w.rainy_days_count + 1 ≠ 0 → q + 1 ≠ 0
        → w.annual_rainfall_mm / 365 + 0.1 ≠ 0
        → (predict { roof_area_m2 := some (PyVal.num q) } w).toOption.isSome = true)
      ∧ (∀ w : Weather, predict {} w = .error ())
      ∧ (∀ (p : Option ℚ) (w : Weather),
          predict { roof_area_m2 := some (PyVal.str p) } w = .error ())
      ∧ (∀ w : Weather,
          predict { roof_area_m2 := some (PyVal.num (-1)) } w = .error ())
      ∧ (∀ w : Weather,
          predict { roof_area_m2 := some (PyVal.num 100),
                    runoff_coefficient := some (PyVal.str Option.none) } w = .error ()) :=
  ⟨fun q w h1 h2 h3 => predict_num_roof_ok q w h1 h2 h3,
    predict_absent_roof_error, predict_str_roof_error,
    predict_neg_one_roof_error, fun _ => rfl⟩

/-- C5 witness: the success part applied at roof area 50 and the concrete
fallback weather record, discharging the three division guards. -/
theorem predict_rejection_characterisation_witness :
    sampleWeather.rainy_days_count + 1 ≠ 0
      ∧ (50 : ℚ) + 1 ≠ 0
      ∧ sampleWeather.annual_rainfall_mm / 365 + 0.1 ≠ 0
      ∧ (predict { roof_area_m2 := some (PyVal.num 50) } sampleWeather).toOption.isSome
          = true :=
  ⟨by norm_num [sampleWeather], by norm_num, by norm_num [sampleWeather],
    predict_rejection_characterisation.1 50 sampleWeather
      (by norm_num [sampleWeather]) (by norm_num) (by norm_num [sampleWeather])⟩

/-- C5 counterexample: a request whose `roof_area_m2` is present and equal to 0
is processed by the pipeline (a result is produced), not rejected as the claim
states. -/
theorem predict_zero_roof_processed :
    (predict { roof_area_m2 := some (PyVal.num 0) } sampleWeather).toOption.isSome = true :=
  predict_num_roof_ok 0 sampleWeather (by norm_num [sampleWeather]) (by norm_num)
    (by norm_num [sampleWeather])

/- ### C6 — scope of the 0.0 substitution -/

/-- C6 (amended): the coercion loop substitutes 0.0 for an unparsable numeric
field and the pipeline continues to a full result for the soil, elevation and
infiltration fields (shown for `clay_pct`: whenever the weather does not trip
the derived-feature division guards, the request succeeds with the clay
feature 0), but NOT for every declared numeric field: an unparsable
`runoff_coefficient` is passed to `float()` before the coercion loop and
aborts the whole request, and a `roof_area_m2` supplied as any string also
aborts the request because the water-balance computation consumes the raw
value. -/
theorem coercion_zero_default_scope :
    (∀ w : Weather, w.rainy_days_count + 1 ≠ 0
        → w.annual_rainfall_mm / 365 + 0.1 ≠ 0
        → (predict { roof_area_m2 := some (PyVal.num 100),
                     clay_pct := some (PyVal.str Option.none) } w).toOption.map
            (fun o => o.features.clay_pct) = some 0)
      ∧ coerce (PyVal.str Option.none) = 0
      ∧ (∀ w : Weather,
          predict { roof_area_m2 := some (PyVal.num 100),
                    runoff_coefficient := some (PyVal.str Option.none) } w = .error ())
      ∧ (∀ (p : Option ℚ) (w : Weather),
          predict { roof_area_m2 := some (PyVal.str p) } w = .error ()) :=
  ⟨fun w h1 h3 => predict_clay_str_ok w h1 h3, rfl, fun _ => rfl,
    predict_str_roof_error⟩

/-- C6 witness: the clay-substitution part applied at the concrete fallback
weather record, discharging the two division guards. -/
theorem coercion_zero_default_scope_witness :
    sampleWeather.rainy_days_count + 1 ≠ 0
      ∧ sampleWeather.annual_rainfall_mm / 365 + 0.1 ≠ 0
      ∧ (predict { roof_area_m2 := some (PyVal.num 100),
                   clay_pct := some (PyVal.str Option.none) } sampleWeather).toOption.map
          (fun o => o.features.clay_pct) = some 0 :=
  ⟨by norm_num [sampleWeather], by norm_num [sampleWeather],
    coercion_zero_default_scope.1 sampleWeather
      (by norm_num [sampleWeather]) (by norm_num [sampleWeather])⟩

/-- C6 counterexample: a request whose only flaw is an unparsable
`runoff_coefficient` string is aborted entirely, so a single unparsable
numeric field does abort the whole request, contrary to the claim. -/
theorem predict_unparsable_runoff_aborts :
    predict { roof_area_m2 := some (PyVal.num 100),
              runoff_coefficient := some (PyVal.str Option.none) } sampleWeather
      = .error () :=
  rfl

/- ### C7 — recharge metric formulas -/

/-- C7: the recharge-metrics estimator returns
`evaporation_rate = round2(max(0.1, (temp-10)*(100-humidity)/1000*(1+wind/50)))`,
`infiltration_potential = round3(min(1.0, rain/2000))`, and
`recharge_efficiency = round3(infiltration_raw * (1 - evaporation_raw/10))`;
the efficiency is not clamped below by zero: at temp=200, humidity=0, wind=0,
rain=1200 the returned evaporation rate exceeds 10 and the returned recharge
efficiency is negative. -/
theorem rechargeMetrics_formulas (temp humidity wind rain : ℚ) (cm : ℕ) :
    (calculateRechargeMetrics temp humidity wind rain cm).evaporation_rate_mmday
        = pyRound (max 0.1 ((temp - 10) * (100 - humidity) / 1000 * (1 + wind / 50))) 2
      ∧ (calculateRechargeMetrics temp humidity wind rain cm).infiltration_potential
        = pyRound (min 1.0 (rain / 2000)) 3
      ∧ (calculateRechargeMetrics temp humidity wind rain cm).recharge_efficiency
        = pyRound (min 1.0 (rain / 2000)
            * (1 - max 0.1 ((temp - 10) * (100 - humidity) / 1000 * (1 + wind / 50)) / 10)) 3
      ∧ 10 < (calculateRechargeMetrics 200 0 0 1200 7).evaporation_rate_mmday
      ∧ (calculateRechargeMetrics 200 0 0 1200 7).recharge_efficiency < 0 := by
  refine ⟨rfl, rfl, rfl, ?_, ?_⟩
  · have h : (calculateRechargeMetrics 200 0 0 1200 7).evaporation_rate_mmday = 19 := by
      show pyRound (max 0.1 (((200 : ℚ) - 10) * (100 - 0) / 1000 * (1 + 0 / 50))) 2 = 19
      rw [show max (0.1 : ℚ) (((200 : ℚ) - 10) * (100 - 0) / 1000 * (1 + 0 / 50)) = 19 by
        rw [max_eq_right (by norm_num)]
        norm_num]
      show (roundHalfEven ((19 : ℚ) * 10 ^ 2) : ℚ) / 10 ^ 2 = 19
      rw [show ((19 : ℚ) * 10 ^ 2) = ((1900 : ℤ) : ℚ) by norm_num, roundHalfEven_intCast]
      norm_num
    rw [h]
    norm_num
  · have h : (calculateRechargeMetrics 200 0 0 1200 7).recharge_efficiency = -(27/50) := by
      show pyRound (min 1.0 ((1200 : ℚ) / 2000)
          * (1 - max 0.1 (((200 : ℚ) - 10) * (100 - 0) / 1000 * (1 + 0 / 50)) / 10)) 3
        = -(27/50)
      rw [show (min (1.0 : ℚ) ((1200 : ℚ) / 2000)
          * (1 - max (0.1 : ℚ) (((200 : ℚ) - 10) * (100 - 0) / 1000 * (1 + 0 / 50)) / 10))
          = -(27/50) by
        rw [max_eq_right (by norm_num), min_eq_right (by norm_num)]
        norm_num]
      show (roundHalfEven ((-(27/50) : ℚ) * 10 ^ 3) : ℚ) / 10 ^ 3 = -(27/50)
      rw [show ((-(27/50) : ℚ) * 10 ^ 3) = ((-540 : ℤ) : ℚ) by norm_num, roundHalfEven_intCast]
      norm_num
    rw [h]
    norm_num

/- ### C8 — determinism and the system clock -/

/-- C8 (amended): the water-balance and feature computations are pure functions
of their explicit inputs, and the recharge-metrics estimator's evaporation
rate, infiltration potential, recharge efficiency and monsoon-intensity
outputs do not depend on the ambient clock month; its seasonality outputs,
however, are read off the system clock (see the counterexample), so the
estimator as a whole is not a function of its explicit inputs alone. -/
theorem rechargeMetrics_clock_independent_parts
    (temp humidity wind rain : ℚ) (m1 m2 : ℕ) :
    (calculateRechargeMetrics temp humidity wind rain m1).evaporation_rate_mmday
        = (calculateRechargeMetrics temp humidity wind rain m2).evaporation_rate_mmday
      ∧ (calculateRechargeMetrics temp humidity wind rain m1).infiltration_potential
        = (calculateRechargeMetrics temp humidity wind rain m2).infiltration_potential
      ∧ (calculateRechargeMetrics temp humidity wind rain m1).recharge_efficiency
        = (calculateRechargeMetrics temp humidity wind rain m2).recharge_efficiency
      ∧ (calculateRechargeMetrics temp humidity wind rain m1).monsoon_intensity
        = (calculateRechargeMetrics temp humidity wind rain m2).monsoon_intensity
      ∧ (calculateRechargeMetrics temp humidity wind rain m1).intensity_score
        = (calculateRechargeMetrics temp humidity wind rain m2).intensity_score :=
  ⟨rfl, rfl, rfl, rfl, rfl⟩

/-- C8 counterexample: two invocations of the recharge-metrics estimator with
bit-identical explicit input (temp 25, humidity 70, wind 10, rain 1200) return
different outputs when the ambient clock month differs (July vs January): the
seasonality recharge factor is 1.5 in one and 0.5 in the other, so the
component does depend on the system clock. -/
theorem seasonality_clock_dependent :
    (calculateRechargeMetrics 25 70 10 1200 7).recharge_factor
      ≠ (calculateRechargeMetrics 25 70 10 1200 1).recharge_factor := by
  have h7 : (calculateRechargeMetrics 25 70 10 1200 7).recharge_factor = 1.5 := rfl
  have h1 : (calculateRechargeMetrics 25 70 10 1200 1).recharge_factor = 0.5 := rfl
  rw [h7, h1]
  norm_num

/- ### C9 — monotonicity in roof area -/

/-- C9: with all other inputs fixed and non-negative, a larger non-negative
roof area never decreases the annual harvestable litres, the derived
harvest-potential feature, or the tank capacity. -/
theorem harvest_monotone_in_roof (roof1 roof2 rain runoff : ℚ)
    (h0 : 0 ≤ roof1) (h12 : roof1 ≤ roof2) (hr : 0 ≤ rain) (hc : 0 ≤ runoff) :
    annualHarvestable roof1 rain runoff ≤ annualHarvestable roof2 rain runoff
      ∧ harvestPotential rain roof1 runoff ≤ harvestPotential rain roof2 runoff
      ∧ tankCap (annualHarvestable roof1 rain runoff)
          ≤ tankCap (annualHarvestable roof2 rain runoff) := by
  have hrn : 0 ≤ rain / 1000 := div_nonneg hr (by norm_num)
  have hann : annualHarvestable roof1 rain runoff ≤ annualHarvestable roof2 rain runoff := by
    unfold annualHarvestable
    exact mul_le_mul_of_nonneg_right
      (mul_le_mul_of_nonneg_right (mul_le_mul_of_nonneg_right h12 hrn) hc) (by norm_num)
  have ha1 : 0 ≤ annualHarvestable roof1 rain runoff := annualHarvestable_nonneg h0 hr hc
  have hpot : harvestPotential rain roof1 runoff ≤ harvestPotential rain roof2 runoff := by
    unfold harvestPotential
    exact (div_le_div_iff_of_pos_right (by norm_num : (0 : ℚ) < 1000)).mpr
      (mul_le_mul_of_nonneg_right (mul_le_mul_of_nonneg_left h12 hr) hc)
  have hm1 : 0 ≤ min (annualHarvestable roof1 rain runoff * 0.3) (dailyUsage * 90) :=
    le_min (mul_nonneg ha1 (by norm_num)) (by norm_num [dailyUsage])
  have hm2 : 0 ≤ min (annualHarvestable roof2 rain runoff * 0.3) (dailyUsage * 90) :=
    le_min (mul_nonneg (ha1.trans hann) (by norm_num)) (by norm_num [dailyUsage])
  have htank : tankCap (annualHarvestable roof1 rain runoff)
      ≤ tankCap (annualHarvestable roof2 rain runoff) := by
    unfold tankCap
    rw [pyInt_eq_floor hm1, pyInt_eq_floor hm2]
    exact Int.floor_le_floor
      (min_le_min (mul_le_mul_of_nonneg_right hann (by norm_num)) le_rfl)
  exact ⟨hann, hpot, htank⟩

/-- C9 witness: the theorem applied at roof areas 50 ≤ 100 with rain 1200 and
runoff coefficient 0.8. -/
theorem harvest_monotone_in_roof_witness :
    (0 : ℚ) ≤ 50 ∧ (50 : ℚ) ≤ 100 ∧ (0 : ℚ) ≤ 1200 ∧ (0 : ℚ) ≤ 0.8 ∧
      (annualHarvestable 50 1200 0.8 ≤ annualHarvestable 100 1200 0.8
        ∧ harvestPotential 1200 50 0.8 ≤ harvestPotential 1200 100 0.8
        ∧ tankCap (annualHarvestable 50 1200 0.8)
            ≤ tankCap (annualHarvestable 100 1200 0.8)) :=
  ⟨by norm_num, by norm_num, by norm_num, by norm_num,
    harvest_monotone_in_roof 50 100 1200 0.8
      (by norm_num) (by norm_num) (by norm_num) (by norm_num)⟩

/- ### C10 — the water balance consumes the raw roof area -/

/-- C10: whenever `roof_area_m2` is supplied as a string — any parse result
`p`, including a string that parses as a number such as "100" (`p = some 100`)
— the whole request errors out, because the harvest computation multiplies the
raw request value (a `TypeError` in Python), even though the coercion loop
would store the parsed float (or 0.0 for an unparsable string) as the coerced
feature-vector entry. -/
theorem predict_consumes_raw_roof (p : Option ℚ) (w : Weather) :
    predict { roof_area_m2 := some (PyVal.str p) } w = .error ()
      ∧ coerce (PyVal.str p) = p.getD 0
      ∧ (∀ x : ℚ, pyMulNum (PyVal.str p) x = .error ()) := by
  refine ⟨predict_str_roof_error p w, ?_, fun x => rfl⟩
  cases p <;> rfl

end GreenDrop
